import Mathlib

/-!
Shallow embedding of the zakaz trading assistant core, translated from the
Rust sources, together with theorems settling the specification claims.

Modelling conventions:
* Rust `f64` values are modelled as `ℚ`; all arithmetic appearing in the
  claims (sums, divisions, comparisons, `max`, `min`, floors) is exact.
* Rust `HashMap` values are modelled as association lists with
  last-insert-wins semantics (`amFind` / `amInsert` / `amRemove`).
* Fallible Rust functions returning `Result` are modelled with `Except`;
  a Rust index panic is modelled by a dedicated error constructor.
* Timestamps (`chrono` values) are modelled as integers supplied as
  explicit `now` parameters.
* `f64::sqrt` (used only for `std_dev_range`) is modelled by an explicit
  function parameter `sqrtFn`; no claim depends on its value.
-/

namespace Zakaz

/-! ## Order template data model (src/zakaz/src/ib/types.rs) -/

inductive OrderSide where
  | long
  | short
deriving DecidableEq, Repr

inductive TimeInForce where
  | day
  | gtc
deriving DecidableEq, Repr

inductive OrderTemplateStatus where
  | inactive
  | activating
  | active
  | deactivating
  | failed
deriving DecidableEq, Repr

inductive TradingModel where
  | breakout
  | falseBreakout
  | bounce
  | continuation
deriving DecidableEq, Repr

structure OrderTemplate where
  id : String
  name : String
  symbol : String
  side : OrderSide
  quantity : ℚ
  limit_price : ℚ
  stop_price : ℚ
  technical_stop_price : Option ℚ
  time_in_force : TimeInForce
  status : OrderTemplateStatus
  parent_order_id : Option ℤ
  stop_order_id : Option ℤ
  created_at : ℤ
  activated_at : Option ℤ
  notes : Option String
  model : TradingModel
  is_read_only : Bool
  risk_per_trade : ℚ
deriving DecidableEq, Repr

def OrderTemplate.is_active (t : OrderTemplate) : Bool :=
  match t.status with
  | .active => true
  | _ => false

def OrderTemplate.can_activate (t : OrderTemplate) : Bool :=
  match t.status with
  | .inactive => true
  | .failed => true
  | _ => false

def OrderTemplate.can_deactivate (t : OrderTemplate) : Bool :=
  match t.status with
  | .active => true
  | _ => false

/-- `OrderTemplate::validate` (types.rs lines 132-160): early-return chain of
checks, then a match on the side for stop placement. -/
def OrderTemplate.validate (t : OrderTemplate) : Except String Unit :=
  if t.quantity ≤ 0 then
    Except.error "Quantity must be positive"
  else if t.limit_price ≤ 0 then
    Except.error "Limit price must be positive"
  else if t.stop_price ≤ 0 then
    Except.error "Stop price must be positive"
  else
    match t.side with
    | .long =>
        if t.limit_price ≤ t.stop_price then
          Except.error "For long orders, stop price must be below limit price"
        else
          Except.ok ()
    | .short =>
        if t.stop_price ≤ t.limit_price then
          Except.error "For short orders, stop price must be above limit price"
        else
          Except.ok ()

/-! ## Error taxonomy (src/zakaz/src/error.rs), restricted to the variants the
embedded operations can produce. `panicIndex` models a Rust index panic
(it is not an `AppError` variant in the source; the source would abort). -/

inductive AppError where
  | ibConnection (msg : String)
  | validation (msg : String)
  | notFound (msg : String)
  | panicIndex
deriving DecidableEq, Repr

/-! ## Association-list maps, modelling `HashMap` (last insert wins). -/

def amFind {α β : Type} [DecidableEq α] : List (α × β) → α → Option β
  | [], _ => none
  | p :: rest, k => if p.1 = k then some p.2 else amFind rest k

def amRemove {α β : Type} [DecidableEq α] : List (α × β) → α → List (α × β)
  | [], _ => []
  | p :: rest, k => if p.1 = k then amRemove rest k else p :: amRemove rest k

def amInsert {α β : Type} [DecidableEq α] (m : List (α × β)) (k : α) (v : β) :
    List (α × β) :=
  (k, v) :: amRemove m k

/-! ## Broker client state (src/zakaz/src/ib/client.rs)

`IBClient` holds the template registry, the active-order map
(`order_id → template_id`), the monotonic `next_order_id` (initial 1000) and
the connection handles.  Only whether an active client is available matters
to the embedded operations, so the two connections and the account selector
collapse to `has_active_client` (the result of `get_active_client`).
Broker I/O (`place_order`, `cancel_order`) is modelled by boolean outcome
parameters supplied to each operation. -/

structure IBState where
  templates : List (String × OrderTemplate)
  active_orders : List (ℤ × String)
  next_order_id : ℤ
  has_active_client : Bool
deriving DecidableEq, Repr

def IBState.new : IBState :=
  { templates := []
    active_orders := []
    next_order_id := 1000
    has_active_client := false }

/-- `IBClient::get_next_order_id` (client.rs lines 154-159): returns the
current value and increments the counter. -/
def get_next_order_id (s : IBState) : ℤ × IBState :=
  (s.next_order_id, { s with next_order_id := s.next_order_id + 1 })

/-- `IBClient::create_template` (client.rs lines 162-170): validate, then
insert unconditionally (replacing any template with the same id). -/
def create_template (s : IBState) (template : OrderTemplate) :
    Except AppError String × IBState :=
  match template.validate with
  | Except.error e => (Except.error (AppError.validation e), s)
  | Except.ok () =>
      (Except.ok template.id,
       { s with templates := amInsert s.templates template.id template })

/-- `IBClient::activate_template` (client.rs lines 210-303).

`parent_ok` / `stop_ok` stand for the outcomes of the two
`place_order` calls on the blocking worker; `now` stands for
`chrono::Utc::now()`.  Note the source allocates only the parent id from
`get_next_order_id` and sets `stop_order_id = parent_order_id + 1`. -/
def activate_template (s : IBState) (template_id : String)
    (parent_ok stop_ok : Bool) (now : ℤ) :
    Except AppError Unit × IBState :=
  if ¬s.has_active_client then
    (Except.error (AppError.ibConnection "No active account selected"), s)
  else
    match amFind s.templates template_id with
    | none =>
        (Except.error (AppError.notFound ("Template " ++ template_id ++ " not found")), s)
    | some template =>
        if ¬template.can_activate then
          (Except.error (AppError.validation "Template cannot be activated in current state"), s)
        else
          let (parent_order_id, s1) := get_next_order_id s
          let stop_order_id := parent_order_id + 1
          let t1 := { template with
                        status := OrderTemplateStatus.activating
                        parent_order_id := some parent_order_id
                        stop_order_id := some stop_order_id }
          if parent_ok && stop_ok then
            let t2 := { t1 with
                          status := OrderTemplateStatus.active
                          activated_at := some now }
            (Except.ok (),
             { s1 with
                 templates := amInsert s1.templates template_id t2
                 active_orders :=
                   amInsert (amInsert s1.active_orders parent_order_id template_id)
                     stop_order_id template_id })
          else
            let t2 := { t1 with
                          status := OrderTemplateStatus.failed
                          parent_order_id := none
                          stop_order_id := none }
            (Except.error (AppError.ibConnection "Failed to place orders"),
             { s1 with templates := amInsert s1.templates template_id t2 })

/-- `IBClient::deactivate_template` (client.rs lines 305-367).

`cancel_parent_ok` / `cancel_stop_ok` stand for the outcomes of the two
`cancel_order` calls; the source's string test
`e.contains(format!("parent order {}", id))` is modelled by the
corresponding outcome booleans. On a non-empty error list the template is
marked Failed and its broker ids are left in place. -/
def deactivate_template (s : IBState) (template_id : String)
    (cancel_parent_ok cancel_stop_ok : Bool) :
    Except AppError Unit × IBState :=
  if ¬s.has_active_client then
    (Except.error (AppError.ibConnection "No active account selected"), s)
  else
    match amFind s.templates template_id with
    | none =>
        (Except.error (AppError.notFound ("Template " ++ template_id ++ " not found")), s)
    | some template =>
        if ¬template.can_deactivate then
          (Except.error (AppError.validation "Template cannot be deactivated in current state"), s)
        else
          let t1 := { template with status := OrderTemplateStatus.deactivating }
          let parent_errored := template.parent_order_id.isSome && !cancel_parent_ok
          let stop_errored := template.stop_order_id.isSome && !cancel_stop_ok
          let orders1 :=
            match template.parent_order_id with
            | some pid => if !parent_errored then amRemove s.active_orders pid else s.active_orders
            | none => s.active_orders
          let orders2 :=
            match template.stop_order_id with
            | some sid => if !stop_errored then amRemove orders1 sid else orders1
            | none => orders1
          if !parent_errored && !stop_errored then
            let t2 := { t1 with
                          status := OrderTemplateStatus.inactive
                          parent_order_id := none
                          stop_order_id := none }
            (Except.ok (),
             { s with
                 templates := amInsert s.templates template_id t2
                 active_orders := orders2 })
          else
            let t2 := { t1 with status := OrderTemplateStatus.failed }
            (Except.error (AppError.ibConnection "cancel failed"),
             { s with
                 templates := amInsert s.templates template_id t2
                 active_orders := orders2 })

/-! ## Historical bars and the filtered-ATR engine
(src/zakaz/src/ib/types.rs, src/zakaz/src/ib/client.rs lines 475-636) -/

structure HistoricalBar where
  timestamp : ℤ
  open_ : ℚ
  high : ℚ
  low : ℚ
  close : ℚ
  volume : ℤ
  wap : ℚ
  count : ℤ
deriving DecidableEq, Repr

instance : Inhabited HistoricalBar :=
  ⟨{ timestamp := 0, open_ := 0, high := 0, low := 0, close := 0,
     volume := 0, wap := 0, count := 0 }⟩

inductive OutlierMethod where
  | iqr (multiplier : ℚ)
  | zScore (threshold : ℚ)
  | percentile (low high : ℚ)
deriving DecidableEq, Repr

/-- The content of the source's `reason` string
`"Range {:.2} below lower bound {:.2}"` / `"Range {:.2} above upper bound {:.2}"`,
modelled structurally instead of as formatted text. -/
inductive ExclusionReason where
  | belowLower (range bound : ℚ)
  | aboveUpper (range bound : ℚ)
deriving DecidableEq, Repr

structure ExcludedBar where
  date : ℤ
  range : ℚ
  reason : ExclusionReason
  high : ℚ
  low : ℚ
deriving DecidableEq, Repr

structure ATRResult where
  symbol : String
  period_days : ℕ
  calculation_date : ℤ
  filtered_atr : ℚ
  regular_atr : ℚ
  atr_difference : ℚ
  atr_difference_percent : ℚ
  total_bars : ℕ
  used_bars : ℕ
  excluded_bars : ℕ
  exclusion_rate : ℚ
  mean_range : ℚ
  median_range : ℚ
  std_dev_range : ℚ
  q1_range : ℚ
  q3_range : ℚ
  iqr : ℚ
  lower_bound : ℚ
  upper_bound : ℚ
  method : OutlierMethod
  excluded_bars_detail : List ExcludedBar
  used_bars_detail : List HistoricalBar
  confidence_score : ℚ
  is_valid : Bool
deriving DecidableEq, Repr

/-- `ATRResult::calculate_confidence` (types.rs lines 259-285). -/
def ATRResult.confidence (r : ATRResult) : ℚ :=
  let sample_score := ((min r.used_bars 14 : ℕ) : ℚ) / 14 * 40
  let exclusion_score : ℚ :=
    if r.exclusion_rate < 1/10 then 30
    else if r.exclusion_rate < 3/10 then 40
    else if r.exclusion_rate < 1/2 then 20
    else 10
  let consistency_score : ℚ :=
    if 0 < r.mean_range then
      let cv := r.std_dev_range / r.mean_range
      max ((1 - min cv 1) * 20) 0
    else 0
  sample_score + exclusion_score + consistency_score

/-- The filtering loop of `calculate_filtered_atr` (client.rs lines 553-580):
walk `(index, range)` pairs newest first; a range outside the bounds is
excluded, otherwise the bar is kept and the loop breaks once `period_days`
bars have been collected (the length check happens after the push). -/
def filter_bars (bars : List HistoricalBar) (lower_bound upper_bound : ℚ)
    (period_days : ℕ) :
    List (ℕ × ℚ) → List HistoricalBar → List ExcludedBar →
    List HistoricalBar × List ExcludedBar
  | [], filtered, excluded => (filtered, excluded)
  | (idx, r) :: rest, filtered, excluded =>
      if r < lower_bound ∨ upper_bound < r then
        let bar := bars.getD idx default
        let reason :=
          if r < lower_bound then ExclusionReason.belowLower r lower_bound
          else ExclusionReason.aboveUpper r upper_bound
        filter_bars bars lower_bound upper_bound period_days rest filtered
          (excluded ++ [{ date := bar.timestamp, range := r, reason := reason,
                          high := bar.high, low := bar.low }])
      else
        let bar := bars.getD idx default
        let filtered2 := filtered ++ [bar]
        if period_days ≤ filtered2.length then (filtered2, excluded)
        else filter_bars bars lower_bound upper_bound period_days rest filtered2 excluded

/-- The `OutlierMethod::Percentile` arm of the bounds computation
(client.rs lines 539-543): `low_idx` is used as an index into
`sorted_ranges` without a bounds check (`none` models the ensuing Rust
index panic), while `high_idx` is clamped with `.min(n-1)`.  The Rust
`as usize` cast of a non-negative float truncates (and saturates at 0 for
negative values), modelled by `Int.toNat ∘ Int.floor`. -/
def percentile_bounds (sorted_ranges : List ℚ) (low high : ℚ) :
    Option (ℚ × ℚ) :=
  let n := sorted_ranges.length
  let low_idx := (Int.floor (low / 100 * (n : ℚ))).toNat
  let high_idx := (Int.floor (high / 100 * (n : ℚ))).toNat
  if low_idx < n then
    some (sorted_ranges.getD low_idx 0, sorted_ranges.getD (min high_idx (n - 1)) 0)
  else none

/-- `IBClient::calculate_filtered_atr` (client.rs lines 475-636).

`bars` stands for `get_historical_data(symbol, fetch_days, "1 day").bars`
(ascending by timestamp); `now` for `chrono::Utc::now()`; `sqrtFn` for
`f64::sqrt`.  The unchecked Rust index `sorted_ranges[low_idx]` of the
percentile branch is modelled by an explicit bounds test whose failure
produces `AppError.panicIndex`. -/
def calculate_filtered_atr (sqrtFn : ℚ → ℚ) (now : ℤ)
    (bars : List HistoricalBar) (symbol : String) (period_days : ℕ)
    (method : OutlierMethod) : Except AppError ATRResult :=
  let fetch_days := min (max (period_days * 3) 30) 60
  if bars.isEmpty then
    Except.error (AppError.validation "No historical data available")
  else
    let total_bars := bars.length
    let ranges : List (ℕ × ℚ) := bars.enum.map (fun p => (p.1, p.2.high - p.2.low))
    let sorted_ranges := List.insertionSort (· ≤ ·) (ranges.map (fun p => p.2))
    let n := sorted_ranges.length
    let mean_range := sorted_ranges.sum / (n : ℚ)
    let median_range :=
      if n % 2 = 0 then
        (sorted_ranges.getD (n / 2 - 1) 0 + sorted_ranges.getD (n / 2) 0) / 2
      else sorted_ranges.getD (n / 2) 0
    let variance := ((sorted_ranges.map (fun r => (r - mean_range) ^ 2)).sum) / (n : ℚ)
    let std_dev_range := sqrtFn variance
    let q1_range := sorted_ranges.getD (n / 4) 0
    let q3_range := sorted_ranges.getD (3 * n / 4) 0
    let iqr := q3_range - q1_range
    let bounds? : Option (ℚ × ℚ) :=
      match method with
      | .iqr multiplier =>
          some (max (q1_range - multiplier * iqr) 0, q3_range + multiplier * iqr)
      | .zScore threshold =>
          some (max (mean_range - threshold * std_dev_range) 0,
                mean_range + threshold * std_dev_range)
      | .percentile low high => percentile_bounds sorted_ranges low high
    match bounds? with
    | none => Except.error AppError.panicIndex
    | some (lower_bound, upper_bound) =>
        let (filtered_bars, excluded_bars) :=
          filter_bars bars lower_bound upper_bound period_days
            ((ranges.reverse).take fetch_days) [] []
        let used_bars := filtered_bars.length
        let exclusion_rate : ℚ :=
          if 0 < total_bars then (excluded_bars.length : ℚ) / (total_bars : ℚ) else 0
        let is_valid := period_days ≤ used_bars
        let filtered_atr : ℚ :=
          if 0 < used_bars then
            let filtered_ranges := (filtered_bars.take period_days).map (fun b => b.high - b.low)
            filtered_ranges.sum / (filtered_ranges.length : ℚ)
          else 0
        let regular_ranges := (bars.reverse.take period_days).map (fun b => b.high - b.low)
        let regular_atr : ℚ :=
          if regular_ranges.isEmpty then 0
          else regular_ranges.sum / (regular_ranges.length : ℚ)
        let atr_difference := if 0 < regular_atr then filtered_atr - regular_atr else 0
        let atr_difference_percent :=
          if 0 < regular_atr then (filtered_atr - regular_atr) / regular_atr * 100 else 0
        let result0 : ATRResult :=
          { symbol := symbol
            period_days := period_days
            calculation_date := now
            filtered_atr := filtered_atr
            regular_atr := regular_atr
            atr_difference := atr_difference
            atr_difference_percent := atr_difference_percent
            total_bars := total_bars
            used_bars := used_bars
            excluded_bars := excluded_bars.length
            exclusion_rate := exclusion_rate
            mean_range := mean_range
            median_range := median_range
            std_dev_range := std_dev_range
            q1_range := q1_range
            q3_range := q3_range
            iqr := iqr
            lower_bound := lower_bound
            upper_bound := upper_bound
            method := method
            excluded_bars_detail := excluded_bars
            used_bars_detail := filtered_bars
            confidence_score := 0
            is_valid := is_valid }
        Except.ok { result0 with confidence_score := result0.confidence }

/-! ## Chart viewport (src/zakaz/src/charts/types.rs, charts/viewport.rs) -/

structure ChartViewport where
  x_min : ℚ
  x_max : ℚ
  y_min : ℚ
  y_max : ℚ
deriving DecidableEq, Repr

def ChartViewport.new : ChartViewport :=
  { x_min := 0, x_max := 100, y_min := 0, y_max := 100 }

/-- `ChartViewport::zoom` (charts/types.rs lines 56-74). -/
def ChartViewport.zoom (v : ChartViewport) (factor center_x center_y : ℚ) :
    ChartViewport :=
  let x_span := v.x_max - v.x_min
  let y_span := v.y_max - v.y_min
  let new_x_span := x_span / factor
  let new_y_span := y_span / factor
  let xFrac := (center_x - v.x_min) / x_span
  let yFrac := (center_y - v.y_min) / y_span
  { x_min := center_x - new_x_span * xFrac
    x_max := center_x + new_x_span * (1 - xFrac)
    y_min := center_y - new_y_span * yFrac
    y_max := center_y + new_y_span * (1 - yFrac) }

/-- `ChartViewport::pan` (charts/types.rs lines 76-81). -/
def ChartViewport.pan (v : ChartViewport) (dx dy : ℚ) : ChartViewport :=
  { x_min := v.x_min + dx, x_max := v.x_max + dx,
    y_min := v.y_min + dy, y_max := v.y_max + dy }

structure ViewportController where
  viewport : ChartViewport
  min_zoom_bars : ℚ
  max_zoom_bars : ℚ
  data_length : ℕ
deriving DecidableEq, Repr

/-- `ViewportController::new` (charts/viewport.rs lines 12-30). -/
def ViewportController.new (data_length : ℕ) : ViewportController :=
  let viewport :=
    if 0 < data_length then
      { x_min := 0, x_max := min ((data_length : ℚ) - 1) 100,
        y_min := 0, y_max := 100 }
    else ChartViewport.new
  { viewport := viewport, min_zoom_bars := 5, max_zoom_bars := 500,
    data_length := data_length }

/-- `ViewportController::constrain_viewport` (charts/viewport.rs lines 85-115). -/
def ViewportController.constrain_viewport (c : ViewportController) :
    ViewportController :=
  if c.data_length = 0 then c
  else
    let max_x := (c.data_length : ℚ) - 1
    let v := c.viewport
    let x_span := v.x_max - v.x_min
    let v1 :=
      if x_span < c.min_zoom_bars then
        let center := (v.x_min + v.x_max) / 2
        { v with x_min := center - c.min_zoom_bars / 2,
                 x_max := center + c.min_zoom_bars / 2 }
      else if c.max_zoom_bars < x_span then
        let center := (v.x_min + v.x_max) / 2
        { v with x_min := center - c.max_zoom_bars / 2,
                 x_max := center + c.max_zoom_bars / 2 }
      else v
    let v2 :=
      if v1.x_min < 0 then
        let shift := -v1.x_min
        { v1 with x_min := 0, x_max := v1.x_max + shift }
      else v1
    let v3 :=
      if max_x < v2.x_max then
        let shift := v2.x_max - max_x
        { v2 with x_max := max_x, x_min := max (v2.x_min - shift) 0 }
      else v2
    { c with viewport := v3 }

/-- `ViewportController::zoom` (charts/viewport.rs lines 39-50): reject
zooms that would leave the allowed bar-span band, otherwise zoom and
constrain. -/
def ViewportController.zoom (c : ViewportController)
    (factor center_x center_y : ℚ) : ViewportController :=
  let current_bars := c.viewport.x_max - c.viewport.x_min
  let new_bars := current_bars / factor
  if new_bars < c.min_zoom_bars ∨ c.max_zoom_bars < new_bars then c
  else
    ViewportController.constrain_viewport
      { c with viewport := c.viewport.zoom factor center_x center_y }

/-- `ViewportController::pan` (charts/viewport.rs lines 52-55). -/
def ViewportController.pan (c : ViewportController) (dx dy : ℚ) :
    ViewportController :=
  ViewportController.constrain_viewport
    { c with viewport := c.viewport.pan dx dy }

/-- A pan or zoom request, as delivered by chart messages. -/
inductive ViewportOp where
  | pan (dx dy : ℚ)
  | zoom (factor center_x center_y : ℚ)
deriving DecidableEq, Repr

def applyOp (c : ViewportController) : ViewportOp → ViewportController
  | .pan dx dy => c.pan dx dy
  | .zoom factor cx cy => c.zoom factor cx cy

def applyOps (c : ViewportController) : List ViewportOp → ViewportController
  | [] => c
  | op :: rest => applyOps (applyOp c op) rest

/-! ## Runtime state and mailbox folding function
(src/zakaz/src/system/state.rs, system/mailbox.rs)

`State` keeps only the fields the folding function reads or writes; the
shared handles (`runtime`, `ib_client`, `chart_data`, `viewport_controller`,
`chart_theme`) are opaque to the embedded message arms.  UI-bus emission
(`send_message_to_ui`) is a side channel and is not part of the fold's
value. -/

structure State where
  version : ℕ
  counter : ℤ
  start_time : ℤ
  is_running : Bool
deriving DecidableEq, Repr

/-- `State::new` (state.rs lines 36-48); `now` stands for `Local::now()`. -/
def State.new (now : ℤ) : State :=
  { version := 0, counter := 0, start_time := now, is_running := false }

inductive RuntimeInMessage where
  | start
  | stop
  | state
  | newState (s : State)
  | incrementCounter
  | decrementCounter
  | resetCounter
  | error (msg : String)
deriving DecidableEq, Repr

/-- Reply messages. The source also has `OkMsg(String)` and
`Unhandled(RuntimeInMessage)`, which the embedded handler arms never
produce. -/
inductive RuntimeOutMessage where
  | started (time : ℤ)
  | stateReply (s : State) (time : ℤ)
  | error (msg : String)
  | ok
deriving DecidableEq, Repr

/-- The mailbox folding function (mailbox.rs lines 33-126): one message is
folded into the state and one reply is sent on the reply channel.  `now`
stands for the wall-clock reads (`Local::now()` / `Utc::now()`). -/
def step (now : ℤ) : RuntimeInMessage → State → State × RuntimeOutMessage
  | .newState s', _ => (s', .ok)
  | .start, s =>
      let s' := { s with version := s.version + 1, start_time := now,
                         is_running := true }
      (s', .started s'.start_time)
  | .stop, s =>
      ({ s with version := s.version + 1, is_running := false }, .ok)
  | .state, s => (s, .stateReply s now)
  | .incrementCounter, s =>
      ({ s with version := s.version + 1, counter := s.counter + 1 }, .ok)
  | .decrementCounter, s =>
      ({ s with version := s.version + 1, counter := s.counter - 1 }, .ok)
  | .resetCounter, s =>
      ({ s with version := s.version + 1, counter := 0 }, .ok)
  | .error msg, s => (s, .error msg)

/-- Sequential mailbox processing: fold the messages in order, collecting
the replies in delivery order. -/
def run_messages (now : ℤ) : List RuntimeInMessage → State →
    State × List RuntimeOutMessage
  | [], s => (s, [])
  | m :: rest, s =>
      let (s', r) := step now m s
      let (s'', rs) := run_messages now rest s'
      (s'', r :: rs)

/-! ## Viewport invariant predicates (for the claims about pan/zoom) -/

/-- The viewport well-formedness stated by the specification:
`0 ≤ x_min < x_max ≤ data_length - 1` and the visible bar-span lies within
`[min_zoom_bars, max_zoom_bars]`. -/
def GoodViewport (c : ViewportController) : Prop :=
  0 ≤ c.viewport.x_min ∧
  c.viewport.x_min < c.viewport.x_max ∧
  c.viewport.x_max ≤ (c.data_length : ℚ) - 1 ∧
  c.min_zoom_bars ≤ c.viewport.x_max - c.viewport.x_min ∧
  c.viewport.x_max - c.viewport.x_min ≤ c.max_zoom_bars

/-- Auxiliary inductive invariant: the controller's configuration fields as
set by `ViewportController::new` together with `GoodViewport`. -/
def ControllerInv (c : ViewportController) : Prop :=
  c.min_zoom_bars = 5 ∧ c.max_zoom_bars = 500 ∧ 5 < c.data_length ∧ GoodViewport c

/-! ## Concrete instances used by scenario theorems, counterexamples and
witnesses -/

/-- A valid Long template (stop 48 < limit 50), status Inactive. -/
def tmpl_T1 : OrderTemplate :=
  { id := "T1", name := "n", symbol := "AAPL", side := OrderSide.long,
    quantity := 10, limit_price := 50, stop_price := 48,
    technical_stop_price := none, time_in_force := TimeInForce.day,
    status := OrderTemplateStatus.inactive, parent_order_id := none,
    stop_order_id := none, created_at := 0, activated_at := none,
    notes := none, model := TradingModel.breakout, is_read_only := false,
    risk_per_trade := 100 }

def tmpl_T2 : OrderTemplate := { tmpl_T1 with id := "T2" }

/-- `tmpl_T1` as it looks while live at the broker. -/
def tmpl_T1_active : OrderTemplate :=
  { tmpl_T1 with
      status := OrderTemplateStatus.active
      parent_order_id := some 1000
      stop_order_id := some 1001 }

/-- Registry holding two inactive templates, fresh order-id allocator. -/
def ib_fresh : IBState :=
  { templates := [("T1", tmpl_T1), ("T2", tmpl_T2)],
    active_orders := [], next_order_id := 1000, has_active_client := true }

/-- Registry holding one Active template whose two orders are live. -/
def ib_live : IBState :=
  { templates := [("T1", tmpl_T1_active)],
    active_orders := [(1000, "T1"), (1001, "T1")],
    next_order_id := 1002, has_active_client := true }

/-- State after successfully activating `T1` from `ib_fresh`. -/
def ib_after_first : IBState := (activate_template ib_fresh "T1" true true 0).2

/-- State after then successfully activating `T2`. -/
def ib_after_second : IBState := (activate_template ib_after_first "T2" true true 0).2

def mk_bar (i : ℤ) (h : ℚ) : HistoricalBar :=
  { timestamp := i, open_ := 0, high := h, low := 0, close := 0,
    volume := 0, wap := 0, count := 0 }

/-- Fifteen daily bars, ascending by time, with ranges
`[1,1,1,1,1,1,1,1,1,1,1,1,1,1,100]` (the range-100 bar is newest). -/
def atr_bars : List HistoricalBar :=
  (List.range 14).map (fun i => mk_bar i 1) ++ [mk_bar 14 100]

def one_bar : HistoricalBar := mk_bar 0 1

/-! ## Association-map lemmas -/

theorem amFind_amRemove_ne {α β : Type} [DecidableEq α]
    (m : List (α × β)) (k k' : α) (h : k' ≠ k) :
    amFind (amRemove m k) k' = amFind m k' := by
  induction m with
  | nil => rfl
  | cons a as ih =>
      by_cases hk : a.1 = k
      · have hk2 : a.1 ≠ k' := fun hc => h (hc ▸ hk)
        rw [show amRemove (a :: as) k = amRemove as k from by
              simp [amRemove, hk]]
        rw [ih, show amFind (a :: as) k' = amFind as k' from by
              simp [amFind, hk2]]
      · rw [show amRemove (a :: as) k = a :: amRemove as k from by
              simp [amRemove, hk]]
        by_cases hk2 : a.1 = k'
        · rw [show amFind (a :: amRemove as k) k' = some a.2 from by
                simp [amFind, hk2],
              show amFind (a :: as) k' = some a.2 from by simp [amFind, hk2]]
        · rw [show amFind (a :: amRemove as k) k' = amFind (amRemove as k) k' from by
                simp [amFind, hk2],
              ih,
              show amFind (a :: as) k' = amFind as k' from by simp [amFind, hk2]]

theorem amFind_amInsert_self {α β : Type} [DecidableEq α]
    (m : List (α × β)) (k : α) (v : β) :
    amFind (amInsert m k v) k = some v := by
  simp [amFind, amInsert]

theorem amFind_amInsert_ne {α β : Type} [DecidableEq α]
    (m : List (α × β)) (k k' : α) (v : β) (h : k' ≠ k) :
    amFind (amInsert m k v) k' = amFind m k' := by
  have hne : ¬((k, v).1 = k') := fun hc => h hc.symm
  rw [show amFind (amInsert m k v) k' = amFind (amRemove m k) k' from by
        simp only [amInsert, amFind]
        rw [if_neg hne]]
  exact amFind_amRemove_ne m k k' h

theorem amFind_mem {α β : Type} [DecidableEq α]
    {m : List (α × β)} {k : α} {v : β} (h : amFind m k = some v) :
    (k, v) ∈ m := by
  induction m with
  | nil => exact absurd h (by simp [amFind])
  | cons a as ih =>
      by_cases hk : a.1 = k
      · rw [show amFind (a :: as) k = some a.2 from by simp [amFind, hk]] at h
        have h2 : a.2 = v := by simpa using h
        have hkv : (k, v) = a := by
          cases a
          simp only [Prod.mk.injEq]
          exact ⟨hk.symm, h2.symm⟩
        rw [hkv]
        exact List.mem_cons_self a as
      · rw [show amFind (a :: as) k = amFind as k from by simp [amFind, hk]] at h
        exact List.mem_cons_of_mem a (ih h)

theorem amFind_eq_none_of_lt {β : Type} (m : List (ℤ × β)) (x : ℤ)
    (h : ∀ p ∈ m, p.1 < x) :
    amFind m x = none := by
  cases hf : amFind m x with
  | none => rfl
  | some v =>
      have hlt := h _ (amFind_mem hf)
      exact absurd hlt (lt_irrefl x)

/-! ## Claim theorems -/

/-- C6 (confirmed). `OrderTemplate::validate` succeeds exactly when
`quantity > 0`, `limit_price > 0`, `stop_price > 0`, a Long stop is below
the limit, and a Short stop is above the limit. -/
theorem validate_iff (t : OrderTemplate) :
    t.validate = Except.ok () ↔
      (0 < t.quantity ∧ 0 < t.limit_price ∧ 0 < t.stop_price ∧
       (t.side = OrderSide.long → t.stop_price < t.limit_price) ∧
       (t.side = OrderSide.short → t.limit_price < t.stop_price)) := by
  constructor
  · intro h
    unfold OrderTemplate.validate at h
    cases hside : t.side
    case long =>
      simp only [hside] at h
      split_ifs at h with h1 h2 h3 h4 <;>
        try exact absurd h (fun hc => Except.noConfusion hc)
      exact ⟨not_le.mp h1, not_le.mp h2, not_le.mp h3,
        fun _ => not_le.mp h4, fun hs => OrderSide.noConfusion hs⟩
    case short =>
      simp only [hside] at h
      split_ifs at h with h1 h2 h3 h4 <;>
        try exact absurd h (fun hc => Except.noConfusion hc)
      exact ⟨not_le.mp h1, not_le.mp h2, not_le.mp h3,
        fun hs => OrderSide.noConfusion hs, fun _ => not_le.mp h4⟩
  · rintro ⟨hq, hl, hs, hlong, hshort⟩
    unfold OrderTemplate.validate
    cases hside : t.side
    case long =>
      have hstop := hlong hside
      simp only [hside]
      split_ifs with h1 h2 h3 h4 <;> first | rfl | (exfalso; linarith)
    case short =>
      have hstop := hshort hside
      simp only [hside]
      split_ifs with h1 h2 h3 h4 <;> first | rfl | (exfalso; linarith)

/-- C8 (confirmed). Folding `Start, IncrementCounter, IncrementCounter,
DecrementCounter, ResetCounter, State` through the mailbox folding function
from the initial state replies last with a state snapshot where
`counter = 0`, `version = 5` and `is_running = true`. -/
theorem counter_sequence :
    (run_messages 0
      [RuntimeInMessage.start, RuntimeInMessage.incrementCounter,
       RuntimeInMessage.incrementCounter, RuntimeInMessage.decrementCounter,
       RuntimeInMessage.resetCounter, RuntimeInMessage.state]
      (State.new 0)).2.getLast? =
      some (RuntimeOutMessage.stateReply
        { version := 5, counter := 0, start_time := 0, is_running := true } 0) := rfl

/-- C10 (confirmed). The `State` query arm and the `Error` arm of the
mailbox folding function return the state unchanged (every field identical)
while still producing a reply: the state snapshot, respectively the echoed
error message. -/
theorem state_and_error_are_frame (s : State) (now : ℤ) (msg : String) :
    step now RuntimeInMessage.state s = (s, RuntimeOutMessage.stateReply s now) ∧
    step now (RuntimeInMessage.error msg) s = (s, RuntimeOutMessage.error msg) :=
  ⟨rfl, rfl⟩

/-- C9 (confirmed). `create_template` never fails on a duplicate id: when
the registry already holds a template under `t.id` (any status) and `t`
validates, the call returns `Ok(t.id)` and silently replaces the stored
template; and every error `create_template` can return is a Validation
error coming from `validate`, with the state unchanged. -/
theorem create_template_duplicate_id
    (s : IBState) (t told : OrderTemplate)
    (hdup : amFind s.templates t.id = some told)
    (hval : t.validate = Except.ok ()) :
    create_template s t =
      (Except.ok t.id, { s with templates := amInsert s.templates t.id t }) ∧
    (∀ (s' : IBState) (t' : OrderTemplate) (e : AppError) (s2 : IBState),
        create_template s' t' = (Except.error e, s2) →
        s2 = s' ∧ ∃ m, e = AppError.validation m ∧ t'.validate = Except.error m) := by
  constructor
  · unfold create_template
    rw [hval]
  · intro s' t' e s2 h
    unfold create_template at h
    cases hv : t'.validate with
    | error m =>
        rw [hv] at h
        have h1 : (Except.error (AppError.validation m) : Except AppError String) = Except.error e :=
          congrArg Prod.fst h
        have h2 : s' = s2 := congrArg Prod.snd h
        have h3 : AppError.validation m = e := by
          injection h1
        exact ⟨h2.symm, m, h3.symm, rfl⟩
    | ok u =>
        cases u
        rw [hv] at h
        have h1 := congrArg Prod.fst h
        exact absurd h1 (by simp)

theorem create_template_duplicate_id_witness :
    amFind ib_live.templates tmpl_T1.id = some tmpl_T1_active ∧
    create_template ib_live tmpl_T1 =
      (Except.ok tmpl_T1.id,
       { ib_live with templates := amInsert ib_live.templates tmpl_T1.id tmpl_T1 }) :=
  ⟨rfl, (create_template_duplicate_id ib_live tmpl_T1 tmpl_T1_active rfl rfl).1⟩

/-- C2 (code_bug). The code draws only `parent_order_id` from the
allocator and sets `stop_order_id = parent_order_id + 1` without a second
`next++`: after activating `T1` (parent 1000, stop 1001) the allocator's
next value is 1001 — not strictly greater than the stop id — and the next
activation's parent id is 1001, colliding with `T1`'s stop id; the
active-order map entry for 1001 is silently overwritten to `T2`. -/
theorem order_id_collision_across_activations :
    (amFind ib_after_first.templates "T1").map
        (fun t => (t.parent_order_id, t.stop_order_id)) =
      some (some 1000, some 1001) ∧
    ib_after_first.next_order_id = 1001 ∧
    ¬((1001 : ℤ) < ib_after_first.next_order_id) ∧
    (amFind ib_after_second.templates "T2").map
        (fun t => (t.parent_order_id, t.stop_order_id)) =
      some (some 1001, some 1002) ∧
    amFind ib_after_second.active_orders 1001 = some "T2" :=
  ⟨rfl, rfl, by decide, rfl, rfl⟩

/-- C1 counterexample. `activate_template` on a template that is already
Active returns `Err` while leaving the registry untouched: the template's
status stays Active (not Failed) and its parent order id 1000 is still in
the active-order map, refuting the claim's Err-branch as stated. -/
theorem activate_err_without_failed_cx :
    (activate_template ib_live "T1" true true 0).1 =
      Except.error (AppError.validation "Template cannot be activated in current state") ∧
    (activate_template ib_live "T1" true true 0).2 = ib_live ∧
    (amFind ib_live.templates "T1").map (fun t => t.status) =
      some OrderTemplateStatus.active ∧
    (amFind ib_live.templates "T1").map (fun t => t.parent_order_id) =
      some (some 1000) ∧
    amFind ib_live.active_orders 1000 = some "T1" :=
  ⟨rfl, rfl, rfl, rfl, rfl⟩

/-- C1 (corrected, amended part). Once the preconditions pass (an active
client, the template exists, its status allows activation) and all
previously tracked order ids are below the allocator, `activate_template`
is atomic: on Ok both broker ids are Some (parent = allocator value,
stop = parent + 1) and both map to the template id in the active-order
map; on Err (a transmission failure) the status is Failed, both ids are
cleared and neither allocated id is in the active-order map.  Precondition
failures, by contrast, leave the registry untouched (see the
counterexample). -/
theorem activate_template_bracket_atomicity
    (s : IBState) (tid : String) (pOk sOk : Bool) (now : ℤ) (t0 : OrderTemplate)
    (hcl : s.has_active_client = true)
    (ht : amFind s.templates tid = some t0)
    (hact : t0.can_activate = true)
    (hfresh : ∀ p ∈ s.active_orders, p.1 < s.next_order_id) :
    ((pOk && sOk) = true →
      (activate_template s tid pOk sOk now).1 = Except.ok () ∧
      ∃ t, amFind (activate_template s tid pOk sOk now).2.templates tid = some t ∧
        t.parent_order_id = some s.next_order_id ∧
        t.stop_order_id = some (s.next_order_id + 1) ∧
        amFind (activate_template s tid pOk sOk now).2.active_orders
          s.next_order_id = some tid ∧
        amFind (activate_template s tid pOk sOk now).2.active_orders
          (s.next_order_id + 1) = some tid) ∧
    ((pOk && sOk) = false →
      (activate_template s tid pOk sOk now).1 =
        Except.error (AppError.ibConnection "Failed to place orders") ∧
      ∃ t, amFind (activate_template s tid pOk sOk now).2.templates tid = some t ∧
        t.status = OrderTemplateStatus.failed ∧
        t.parent_order_id = none ∧
        t.stop_order_id = none ∧
        amFind (activate_template s tid pOk sOk now).2.active_orders
          s.next_order_id = none ∧
        amFind (activate_template s tid pOk sOk now).2.active_orders
          (s.next_order_id + 1) = none) := by
  constructor
  · intro hp
    simp only [activate_template, hcl, ht, hact, get_next_order_id, hp,
      Bool.not_true, Bool.false_eq_true, not_false_eq_true, if_true, ite_true,
      if_false, ite_false, not_true_eq_false, reduceIte]
    refine ⟨by trivial, _, amFind_amInsert_self _ _ _, rfl, rfl, ?_, ?_⟩
    · rw [amFind_amInsert_ne _ _ _ _ (by omega)]
      exact amFind_amInsert_self _ _ _
    · exact amFind_amInsert_self _ _ _
  · intro hp
    simp only [activate_template, hcl, ht, hact, get_next_order_id, hp,
      Bool.not_true, Bool.false_eq_true, not_false_eq_true, if_true, ite_true,
      if_false, ite_false, not_true_eq_false, reduceIte]
    refine ⟨by trivial, _, amFind_amInsert_self _ _ _, rfl, rfl, rfl, ?_, ?_⟩
    · exact amFind_eq_none_of_lt s.active_orders s.next_order_id hfresh
    · exact amFind_eq_none_of_lt s.active_orders (s.next_order_id + 1)
        (fun p hp' => lt_trans (hfresh p hp') (by omega))

theorem activate_template_bracket_atomicity_witness :
    amFind (activate_template ib_fresh "T1" true true 0).2.active_orders
      1000 = some "T1" ∧
    amFind (activate_template ib_fresh "T1" true true 0).2.active_orders
      1001 = some "T1" := by
  have h := (activate_template_bracket_atomicity ib_fresh "T1" true true 0 tmpl_T1
      rfl rfl rfl (by intro p hp; simp [ib_fresh] at hp)).1 rfl
  obtain ⟨-, t, -, -, -, h1, h2⟩ := h
  exact ⟨h1, h2⟩

/-- C3 (corrected, amended). Transmission failures set the template to
Failed, but only activation failures clear the broker ids: a failed
`place_order` during activation leaves status Failed with
`parent_order_id = stop_order_id = None`, while a failed `cancel_order`
during deactivation leaves status Failed with both ids still set (the
entries that errored stay mapped for reconciliation). -/
theorem transmission_failure_semantics
    (s : IBState) (tid : String) (t0 : OrderTemplate)
    (pOk sOk cpOk csOk : Bool) (now : ℤ)
    (hcl : s.has_active_client = true)
    (ht : amFind s.templates tid = some t0) :
    (t0.can_activate = true → (pOk && sOk) = false →
      (amFind (activate_template s tid pOk sOk now).2.templates tid).map
          (fun t => (t.status, t.parent_order_id, t.stop_order_id)) =
        some (OrderTemplateStatus.failed, none, none)) ∧
    (t0.can_deactivate = true →
      ((t0.parent_order_id.isSome && !cpOk) ||
        (t0.stop_order_id.isSome && !csOk)) = true →
      (amFind (deactivate_template s tid cpOk csOk).2.templates tid).map
          (fun t => (t.status, t.parent_order_id, t.stop_order_id)) =
        some (OrderTemplateStatus.failed, t0.parent_order_id, t0.stop_order_id)) := by
  constructor
  · intro hact hp
    simp only [activate_template, hcl, ht, hact, get_next_order_id, hp,
      Bool.not_true, Bool.false_eq_true, not_false_eq_true, if_true, ite_true,
      if_false, ite_false, not_true_eq_false, reduceIte]
    rw [amFind_amInsert_self]
    rfl
  · intro hde herr
    have hcond : (!(t0.parent_order_id.isSome && !cpOk) &&
        !(t0.stop_order_id.isSome && !csOk)) = false := by
      cases h1 : (t0.parent_order_id.isSome && !cpOk) <;>
        cases h2 : (t0.stop_order_id.isSome && !csOk) <;>
          simp_all
    simp only [deactivate_template, hcl, ht, hde, hcond,
      Bool.not_true, Bool.false_eq_true, not_false_eq_true, if_true, ite_true,
      if_false, ite_false, not_true_eq_false, reduceIte]
    rw [amFind_amInsert_self]
    rfl

theorem transmission_failure_semantics_witness :
    (amFind (activate_template ib_fresh "T1" false true 0).2.templates "T1").map
        (fun t => (t.status, t.parent_order_id, t.stop_order_id)) =
      some (OrderTemplateStatus.failed, none, none) ∧
    (amFind (deactivate_template ib_live "T1" false true).2.templates "T1").map
        (fun t => (t.status, t.parent_order_id, t.stop_order_id)) =
      some (OrderTemplateStatus.failed, some 1000, some 1001) := by
  constructor
  · exact (transmission_failure_semantics ib_fresh "T1" tmpl_T1 false true
      false true 0 rfl rfl).1 rfl rfl
  · exact (transmission_failure_semantics ib_live "T1" tmpl_T1_active false
      true false true 0 rfl rfl).2 rfl rfl

/-- C3 counterexample. A failed parent-cancel during deactivation sets the
template to Failed but leaves both `parent_order_id` and `stop_order_id`
set, refuting the claim that every transmission failure clears them. -/
theorem deactivate_failure_keeps_ids_cx :
    (deactivate_template ib_live "T1" false true).1 =
      Except.error (AppError.ibConnection "cancel failed") ∧
    (amFind (deactivate_template ib_live "T1" false true).2.templates "T1").map
        (fun t => (t.status, t.parent_order_id, t.stop_order_id)) =
      some (OrderTemplateStatus.failed, some 1000, some 1001) :=
  ⟨rfl, rfl⟩

/-- C4 counterexample. On the 15-bar scenario the code's `regular_atr` is
the mean over the newest 14 bars of the unfiltered series, which include
the range-100 bar: `(13·1 + 100)/14 = 113/14 ≈ 8.07`, not `≈ 7.6`
(the claimed value is not even within 0.1 of the computed one; 7.6 would
be the mean over all 15 bars). -/
theorem atr_regular_not_7_6_cx :
    (calculate_filtered_atr (fun _ => 0) 0 atr_bars "TEST" 14
        (OutlierMethod.iqr (3/2))).map (fun r => r.regular_atr) =
      Except.ok (113/14) ∧
    ¬(|(113 : ℚ)/14 - 76/10| ≤ 1/10) := by
  refine ⟨by with_unfolding_all rfl, by norm_num [abs_le]⟩

/-- C4 (corrected, amended). On the 15-bar scenario with
`method = IQR(1.5)` and `period_days = 14`, `excluded_bars_detail`
contains exactly the range-100 bar, `filtered_atr = 1`,
`regular_atr = 113/14 (≈ 8.07)`, and `is_valid = true` — for every model
of `f64::sqrt`, since none of these outputs depends on `std_dev_range`. -/
theorem atr_iqr_scenario (sqrtFn : ℚ → ℚ) :
    (calculate_filtered_atr sqrtFn 0 atr_bars "TEST" 14
        (OutlierMethod.iqr (3/2))).map
      (fun r => (r.excluded_bars_detail, r.filtered_atr, r.regular_atr,
                 r.is_valid)) =
    Except.ok
      ([{ date := 14, range := 100,
          reason := ExclusionReason.aboveUpper 100 1, high := 100, low := 0 }],
       1, 113/14, true) := by
  with_unfolding_all rfl

/-- C5 counterexample. With `low = 100` the percentile branch computes
`low_idx = floor(100/100 · n) = n` and indexes `sorted_ranges[n]`, which is
out of bounds for every non-empty series: on a single bar with
`Percentile(100, 100)` the embedding reaches the index-error branch. -/
theorem percentile_low_100_panics_cx :
    calculate_filtered_atr (fun _ => 0) 0 [one_bar] "T" 1
        (OutlierMethod.percentile 100 100) =
      Except.error AppError.panicIndex := by
  with_unfolding_all rfl

theorem percentile_bounds_ne_none (sorted_ranges : List ℚ) (low high : ℚ)
    (hne : sorted_ranges ≠ []) (h0 : 0 ≤ low) (h1 : low < 100) :
    percentile_bounds sorted_ranges low high ≠ none := by
  unfold percentile_bounds
  have hn : 0 < sorted_ranges.length := List.length_pos.mpr hne
  have hlt : (Int.floor (low / 100 * (sorted_ranges.length : ℚ))).toNat <
      sorted_ranges.length := by
    have hdiv : low / 100 < 1 := by
      rw [div_lt_one (by norm_num : (0:ℚ) < 100)]
      exact h1
    have hnp : (0 : ℚ) < (sorted_ranges.length : ℚ) := by exact_mod_cast hn
    have hx : low / 100 * (sorted_ranges.length : ℚ) < (sorted_ranges.length : ℚ) := by
      calc low / 100 * (sorted_ranges.length : ℚ)
          < 1 * (sorted_ranges.length : ℚ) := mul_lt_mul_of_pos_right hdiv hnp
        _ = (sorted_ranges.length : ℚ) := one_mul _
    have hfl : Int.floor (low / 100 * (sorted_ranges.length : ℚ)) <
        (sorted_ranges.length : ℤ) := by
      rw [Int.floor_lt]
      push_cast
      exact hx
    omega
  rw [if_pos hlt]
  simp

/-- C5 (corrected, amended). For every non-empty bar series and
`low ∈ [0, 100)`, `high ∈ [0, 100]`, the percentile bounds are computed
without an out-of-bounds index — the index-error branch is unreachable.
(At `low = 100` the unclamped low index equals `n` and is out of bounds;
see the counterexample.) -/
theorem percentile_method_safe (sqrtFn : ℚ → ℚ) (now : ℤ)
    (bars : List HistoricalBar) (symbol : String) (period_days : ℕ)
    (low high : ℚ) (hne : bars ≠ [])
    (h0 : 0 ≤ low) (h1 : low < 100) (h2 : 0 ≤ high) (h3 : high ≤ 100) :
    calculate_filtered_atr sqrtFn now bars symbol period_days
        (OutlierMethod.percentile low high) ≠
      Except.error AppError.panicIndex := by
  have hemp : bars.isEmpty = false := by
    cases bars with
    | nil => exact absurd rfl hne
    | cons a as => rfl
  simp only [calculate_filtered_atr, hemp, Bool.false_eq_true, if_false,
    ite_false, reduceIte]
  split
  · rename_i heq
    have hlen : (List.insertionSort (fun a b => a ≤ b)
        ((bars.enum.map (fun p => (p.1, p.2.high - p.2.low))).map
          (fun p => p.2))).length = bars.length := by
      rw [List.length_insertionSort, List.length_map, List.length_map,
        List.enum_length]
    have hns : (List.insertionSort (fun a b => a ≤ b)
        ((bars.enum.map (fun p => (p.1, p.2.high - p.2.low))).map
          (fun p => p.2))) ≠ [] := by
      intro hc
      rw [hc] at hlen
      exact hne (List.length_eq_zero.mp hlen.symm)
    exact absurd heq (percentile_bounds_ne_none _ low high hns h0 h1)
  · rename_i lb ub heq
    simp

theorem percentile_method_safe_witness :
    calculate_filtered_atr (fun _ => 0) 0 [one_bar] "T" 1
        (OutlierMethod.percentile 0 100) ≠ Except.error AppError.panicIndex :=
  percentile_method_safe (fun _ => 0) 0 [one_bar] "T" 1 0 100
    (by simp) (by norm_num) (by norm_num) (by norm_num) (by norm_num)

/-! ### Viewport invariant lemmas (C7) -/

/-- The edge-clamping step of `constrain_viewport` (the `x_max > max_x`
branch): clamping `x_max` to `max_x` and flooring `x_min` at 0 keeps the
viewport well-formed whenever the incoming span is in `[5, 500]` and
`5 ≤ max_x`. -/
theorem constrain_clamp_step (x_min x_max max_x : ℚ)
    (h1 : 0 ≤ x_min) (h2 : 5 ≤ x_max - x_min) (h3 : x_max - x_min ≤ 500)
    (hmx : 5 ≤ max_x) (hD : max_x < x_max) :
    0 ≤ (x_min - (x_max - max_x)) ⊔ 0 ∧
    (x_min - (x_max - max_x)) ⊔ 0 < max_x ∧
    5 ≤ max_x - ((x_min - (x_max - max_x)) ⊔ 0) ∧
    max_x - ((x_min - (x_max - max_x)) ⊔ 0) ≤ 500 := by
  have hub : (x_min - (x_max - max_x)) ⊔ 0 ≤ max_x - 5 :=
    max_le (by linarith) (by linarith)
  have hlb2 : x_min - (x_max - max_x) ≤ (x_min - (x_max - max_x)) ⊔ 0 :=
    le_max_left _ _
  have hlb : (0 : ℚ) ≤ (x_min - (x_max - max_x)) ⊔ 0 := le_max_right _ _
  exact ⟨hlb, by linarith, by linarith, by linarith⟩

theorem constrain_viewport_inv (c : ViewportController)
    (h5 : c.min_zoom_bars = 5) (h500 : c.max_zoom_bars = 500)
    (hdl : 5 < c.data_length)
    (hlo : 5 ≤ c.viewport.x_max - c.viewport.x_min)
    (hhi : c.viewport.x_max - c.viewport.x_min ≤ 500) :
    ControllerInv c.constrain_viewport := by
  have hdl0 : ¬(c.data_length = 0) := by omega
  have hmx : (5 : ℚ) ≤ (c.data_length : ℚ) - 1 := by
    have h6 : (6 : ℕ) ≤ c.data_length := hdl
    have h6q : (6 : ℚ) ≤ (c.data_length : ℚ) := by exact_mod_cast h6
    linarith
  unfold ViewportController.constrain_viewport
  rw [if_neg hdl0]
  simp only [h5, h500]
  rw [if_neg (not_lt.mpr hlo), if_neg (not_lt.mpr hhi)]
  split_ifs with hC hD hD
  · -- x_min < 0 (shift right), then x_max beyond max_x (clamp back)
    have hD' : ((c.data_length : ℚ) - 1) <
        c.viewport.x_max + -c.viewport.x_min := hD
    obtain ⟨g1, g2, g3, g4⟩ := constrain_clamp_step 0
      (c.viewport.x_max + -c.viewport.x_min) ((c.data_length : ℚ) - 1)
      (le_refl 0) (by linarith) (by linarith) hmx hD'
    exact ⟨rfl, rfl, hdl, g1, g2, le_refl _, g3, g4⟩
  · -- x_min < 0 (shift right), x_max within bounds
    have hD' : ¬(((c.data_length : ℚ) - 1) <
        c.viewport.x_max + -c.viewport.x_min) := hD
    refine ⟨rfl, rfl, hdl, le_refl 0, ?_, ?_, ?_, ?_⟩
    · show (0 : ℚ) < c.viewport.x_max + -c.viewport.x_min
      linarith
    · show c.viewport.x_max + -c.viewport.x_min ≤ (c.data_length : ℚ) - 1
      linarith
    · show (5 : ℚ) ≤ c.viewport.x_max + -c.viewport.x_min - 0
      linarith
    · show c.viewport.x_max + -c.viewport.x_min - 0 ≤ (500 : ℚ)
      linarith
  · -- x_min in range, x_max beyond max_x (clamp back)
    have hC' : ¬(c.viewport.x_min < 0) := hC
    have hD' : ((c.data_length : ℚ) - 1) < c.viewport.x_max := hD
    obtain ⟨g1, g2, g3, g4⟩ := constrain_clamp_step c.viewport.x_min
      c.viewport.x_max ((c.data_length : ℚ) - 1)
      (by linarith) hlo hhi hmx hD'
    exact ⟨rfl, rfl, hdl, g1, g2, le_refl _, g3, g4⟩
  · -- fully within bounds: viewport unchanged
    have hC' : ¬(c.viewport.x_min < 0) := hC
    have hD' : ¬(((c.data_length : ℚ) - 1) < c.viewport.x_max) := hD
    refine ⟨rfl, rfl, hdl, ?_, ?_, ?_, ?_, ?_⟩
    · show (0 : ℚ) ≤ c.viewport.x_min
      linarith
    · show c.viewport.x_min < c.viewport.x_max
      linarith
    · show c.viewport.x_max ≤ (c.data_length : ℚ) - 1
      linarith
    · show (5 : ℚ) ≤ c.viewport.x_max - c.viewport.x_min
      linarith
    · show c.viewport.x_max - c.viewport.x_min ≤ (500 : ℚ)
      linarith

theorem zoom_span (v : ChartViewport) (factor cx cy : ℚ) :
    (v.zoom factor cx cy).x_max - (v.zoom factor cx cy).x_min =
      (v.x_max - v.x_min) / factor := by
  unfold ChartViewport.zoom
  dsimp only
  ring

theorem pan_span (v : ChartViewport) (dx dy : ℚ) :
    (v.pan dx dy).x_max - (v.pan dx dy).x_min = v.x_max - v.x_min := by
  unfold ChartViewport.pan
  dsimp only
  ring

theorem constrain_data_length (c : ViewportController) :
    c.constrain_viewport.data_length = c.data_length := by
  unfold ViewportController.constrain_viewport
  split_ifs <;> rfl

theorem pan_inv (c : ViewportController) (h : ControllerInv c) (dx dy : ℚ) :
    ControllerInv (c.pan dx dy) := by
  obtain ⟨h5, h500, hdl, g1, g2, g3, g4, g5⟩ := h
  rw [h5] at g4
  rw [h500] at g5
  unfold ViewportController.pan
  apply constrain_viewport_inv
  · exact h5
  · exact h500
  · exact hdl
  · dsimp only
    rw [pan_span]
    exact g4
  · dsimp only
    rw [pan_span]
    exact g5

theorem zoom_inv (c : ViewportController) (h : ControllerInv c)
    (factor cx cy : ℚ) : ControllerInv (c.zoom factor cx cy) := by
  obtain ⟨h5, h500, hdl, g1, g2, g3, g4, g5⟩ := h
  simp only [ViewportController.zoom]
  split_ifs with hrej
  · exact ⟨h5, h500, hdl, g1, g2, g3, g4, g5⟩
  · rw [h5, h500] at hrej
    push_neg at hrej
    obtain ⟨hr1, hr2⟩ := hrej
    apply constrain_viewport_inv
    · exact h5
    · exact h500
    · exact hdl
    · dsimp only
      rw [zoom_span]
      exact hr1
    · dsimp only
      rw [zoom_span]
      exact hr2

theorem applyOp_inv (c : ViewportController) (op : ViewportOp)
    (h : ControllerInv c) : ControllerInv (applyOp c op) := by
  cases op with
  | pan dx dy => exact pan_inv c h dx dy
  | zoom f cx cy => exact zoom_inv c h f cx cy

theorem applyOps_inv (c : ViewportController) (ops : List ViewportOp)
    (h : ControllerInv c) : ControllerInv (applyOps c ops) := by
  induction ops generalizing c with
  | nil => exact h
  | cons op rest ih => exact ih (applyOp c op) (applyOp_inv c op h)

theorem applyOp_data_length (c : ViewportController) (op : ViewportOp) :
    (applyOp c op).data_length = c.data_length := by
  cases op with
  | pan dx dy =>
      show (ViewportController.pan c dx dy).data_length = c.data_length
      unfold ViewportController.pan
      rw [constrain_data_length]
  | zoom f cx cy =>
      show (ViewportController.zoom c f cx cy).data_length = c.data_length
      simp only [ViewportController.zoom]
      split_ifs with h1
      · rfl
      · rw [constrain_data_length]

theorem applyOps_data_length (c : ViewportController) (ops : List ViewportOp) :
    (applyOps c ops).data_length = c.data_length := by
  induction ops generalizing c with
  | nil => rfl
  | cons op rest ih =>
      calc (applyOps (applyOp c op) rest).data_length
          = (applyOp c op).data_length := ih (applyOp c op)
        _ = c.data_length := applyOp_data_length c op

theorem new_inv (dl : ℕ) (h : 5 < dl) :
    ControllerInv (ViewportController.new dl) := by
  unfold ViewportController.new
  rw [if_pos (by omega : 0 < dl)]
  have hq : (6 : ℚ) ≤ (dl : ℚ) := by exact_mod_cast (by omega : (6 : ℕ) ≤ dl)
  have hmin5 : (5 : ℚ) ≤ min ((dl : ℚ) - 1) 100 :=
    le_min (by linarith) (by norm_num)
  have hmin100 : min ((dl : ℚ) - 1) 100 ≤ 100 := min_le_right _ _
  refine ⟨rfl, rfl, h, ?_, ?_, ?_, ?_, ?_⟩
  · show (0 : ℚ) ≤ 0
    exact le_refl 0
  · show (0 : ℚ) < min ((dl : ℚ) - 1) 100
    linarith
  · show min ((dl : ℚ) - 1) 100 ≤ (dl : ℚ) - 1
    exact min_le_left _ _
  · show (5 : ℚ) ≤ min ((dl : ℚ) - 1) 100 - 0
    linarith
  · show min ((dl : ℚ) - 1) 100 - 0 ≤ (500 : ℚ)
    linarith

/-- C7 (confirmed). Starting from `ViewportController::new(data_length)`
with `data_length > min_zoom_bars`, after every finite sequence of pan and
zoom operations the viewport satisfies
`0 ≤ x_min < x_max ≤ data_length - 1` and
`min_zoom_bars ≤ x_max - x_min ≤ max_zoom_bars`. -/
theorem viewport_pan_zoom_invariant (data_length : ℕ) (ops : List ViewportOp)
    (h : 5 < data_length) :
    0 ≤ (applyOps (ViewportController.new data_length) ops).viewport.x_min ∧
    (applyOps (ViewportController.new data_length) ops).viewport.x_min <
      (applyOps (ViewportController.new data_length) ops).viewport.x_max ∧
    (applyOps (ViewportController.new data_length) ops).viewport.x_max ≤
      (data_length : ℚ) - 1 ∧
    (applyOps (ViewportController.new data_length) ops).min_zoom_bars ≤
      (applyOps (ViewportController.new data_length) ops).viewport.x_max -
        (applyOps (ViewportController.new data_length) ops).viewport.x_min ∧
    (applyOps (ViewportController.new data_length) ops).viewport.x_max -
        (applyOps (ViewportController.new data_length) ops).viewport.x_min ≤
      (applyOps (ViewportController.new data_length) ops).max_zoom_bars := by
  obtain ⟨h5, h500, hdl, g1, g2, g3, g4, g5⟩ :=
    applyOps_inv (ViewportController.new data_length) ops (new_inv data_length h)
  have hfld := applyOps_data_length (ViewportController.new data_length) ops
  rw [hfld] at g3
  exact ⟨g1, g2, g3, g4, g5⟩

theorem viewport_pan_zoom_invariant_witness :
    0 ≤ (applyOps (ViewportController.new 10) [ViewportOp.pan 3 0]).viewport.x_min ∧
    (applyOps (ViewportController.new 10) [ViewportOp.pan 3 0]).viewport.x_min <
      (applyOps (ViewportController.new 10) [ViewportOp.pan 3 0]).viewport.x_max ∧
    (applyOps (ViewportController.new 10) [ViewportOp.pan 3 0]).viewport.x_max ≤
      ((10 : ℕ) : ℚ) - 1 ∧
    (applyOps (ViewportController.new 10) [ViewportOp.pan 3 0]).min_zoom_bars ≤
      (applyOps (ViewportController.new 10) [ViewportOp.pan 3 0]).viewport.x_max -
        (applyOps (ViewportController.new 10) [ViewportOp.pan 3 0]).viewport.x_min ∧
    (applyOps (ViewportController.new 10) [ViewportOp.pan 3 0]).viewport.x_max -
        (applyOps (ViewportController.new 10) [ViewportOp.pan 3 0]).viewport.x_min ≤
      (applyOps (ViewportController.new 10) [ViewportOp.pan 3 0]).max_zoom_bars :=
  viewport_pan_zoom_invariant 10 [ViewportOp.pan 3 0] (by omega)

end Zakaz
